import Mathlib

/-!
Shallow embedding of `src/plot/src/bin/plotcharts.rs` (the charting pipeline of
m5stack-azure-iot): timestamp normalization (`as_datetime_vector`), per-sensor
series extraction and panel computation (`plot`), and the multi-panel layout
(`plot_dataframe`).

Modelling conventions:
* A `chrono::NaiveDateTime` is represented as an `Int` counting seconds since
  an epoch; its date is `t / 86400` (floor division) and its time-of-day is
  `t % 86400`, so "midnight of the date of `t`" is `t - t % 86400`.
* A `chrono_tz::Tz` is represented by its UTC-offset function in seconds;
  `Asia/Tokyo` has the fixed offset +09:00 (no daylight saving time).
* A polars column is a list of `Option` values (`none` is a null cell);
  measured values (`f64` in the source) are represented as `Rat` — the claims
  under study depend only on ordering and equality of values, never on
  float rounding.
* Fallible Rust functions returning `Result` become `Except PlotError`.
-/

set_option autoImplicit false

namespace Plotcharts

/-- Errors of the pipeline: `ComputeError("datetime parse error")`,
`NoData(...)`, the `anyhow!("value is empty")` error on `ymin`/`ymax`,
the `try_extract` conversion failure, and the `panic!`-modelled fatal
layout error. -/
inductive PlotError where
  | computeError
  | noData
  | valueEmpty
  | typeError
  | fatalError
  deriving DecidableEq, Repr

/- Column names of the telemetry CSV (module `colname` in the source). -/
namespace colname

def MEASURED_AT : String := "measuredAt"

def SENSOR_ID : String := "sensorId"

def TEMPERATURE : String := "temperature"

def RELATIVE_HUMIDITY : String := "humidity"

def ABSOLUTE_HUMIDITY : String := "absolute_humidity"

def PRESSURE : String := "pressure"

def TVOC : String := "tvoc"

def ECO2 : String := "eCo2"

def CO2 : String := "co2"

end colname

/-- The six colors of `COLOR_PALETTE`. -/
inductive RGBColor where
  | BLUE
  | ORANGE
  | GREEN
  | PINK
  | CYAN
  | DEEPORANGE
  deriving DecidableEq, Repr

/-- The fixed six-entry palette (source lines 37–44). -/
def COLOR_PALETTE : List RGBColor :=
  [.BLUE, .ORANGE, .GREEN, .PINK, .CYAN, .DEEPORANGE]

/-- Color picked for the sensor at position `index` of the sensor roster:
`COLOR_PALETTE.get(index).unwrap_or(&COLOR_PALETTE[0])` (source line 230). -/
def assignedColor (index : Nat) : RGBColor :=
  match COLOR_PALETTE.get? index with
  | some c => c
  | none => RGBColor.BLUE

/-- A timezone, reduced to its UTC-offset function (seconds east of UTC). -/
structure Tz where
  offsetAt : Int → Int

/-- `Asia/Tokyo`: fixed offset +09:00, no daylight saving time. -/
def Tokyo : Tz := ⟨fun _ => 9 * 3600⟩

/-- `tz.from_utc_datetime(t).naive_local()`: shift a UTC instant into the
timezone's local clock. -/
def Tz.from_utc_datetime (tz : Tz) (t : Int) : Int :=
  t + tz.offsetAt t

/-- Midnight (00:00:00) of the calendar date containing the local instant
`t` — `NaiveDateTime::new(t.date(), NaiveTime::from_hms_opt(0,0,0))`. -/
def midnight (t : Int) : Int :=
  t - t % 86400

/-- The hour component of the local instant, `t.time().hour()`. -/
def hourOf (t : Int) : Int :=
  (t % 86400) / 3600

/-- The half-open X-axis interval `day_start_datetime..day_end_datetime`
(`Range<NaiveDateTime>` turned into a `RangedDateTime`). -/
structure RangedDateTime where
  dayStart : Int
  dayEnd : Int
  deriving DecidableEq, Repr

/-- `collect::<Option<Vec<_>>>()`: `some` of the list of values when no
entry is null, `none` as soon as one entry is null. -/
def collectOptions {α : Type} : List (Option α) → Option (List α)
  | [] => some []
  | none :: _ => none
  | some x :: rest =>
    match collectOptions rest with
    | none => none
    | some xs => some (x :: xs)

/-- `iter().min()` on a list. -/
def listMin {α : Type} [LinearOrder α] : List α → Option α
  | [] => none
  | x :: xs =>
    match listMin xs with
    | none => some x
    | some m => some (min x m)

/-- `iter().max()` on a list. -/
def listMax {α : Type} [LinearOrder α] : List α → Option α
  | [] => none
  | x :: xs =>
    match listMax xs with
    | none => some x
    | some m => some (max x m)

/-- `as_datetime_vector` (source lines 67–106): turn the `measuredAt` column
into local datetimes and a day-aligned axis range.  A null cell makes the
collection fail with `ComputeError`; an empty column leaves `min`/`max`
without a value, which is `NoData`. -/
def as_datetime_vector (series : List (Option Int)) (tz : Tz) :
    Except PlotError (List Int × RangedDateTime) :=
  match collectOptions series with
  | none => .error .computeError
  | some original_datetimes =>
    let local_datetimes := original_datetimes.map tz.from_utc_datetime
    match listMin local_datetimes with
    | none => .error .noData
    | some start_datetime =>
      match listMax local_datetimes with
      | none => .error .noData
      | some end_datetime =>
        .ok (local_datetimes,
          { dayStart := midnight start_datetime
            dayEnd := midnight end_datetime + 86400 })

/-- One CSV row after `read_csv`: every cell may be null.  `measuredAt`
holds the parsed UTC timestamp (null when the string was unparseable in
non-strict mode), the seven quantity columns hold measured values. -/
structure TelemetryRow where
  sensorId : Option String
  measuredAt : Option Int
  temperature : Option Rat
  humidity : Option Rat
  absolute_humidity : Option Rat
  pressure : Option Rat
  tvoc : Option Rat
  eCo2 : Option Rat
  co2 : Option Rat
  deriving DecidableEq, Repr

/-- The seven charted quantities, in the order `plot_dataframe` draws them. -/
inductive Quantity where
  | temperature
  | pressure
  | relativeHumidity
  | absoluteHumidity
  | co2
  | tvoc
  | eCo2
  deriving DecidableEq, Repr

/-- The column name `plot` receives for each quantity. -/
def Quantity.colName : Quantity → String
  | .temperature => colname.TEMPERATURE
  | .pressure => colname.PRESSURE
  | .relativeHumidity => colname.RELATIVE_HUMIDITY
  | .absoluteHumidity => colname.ABSOLUTE_HUMIDITY
  | .co2 => colname.CO2
  | .tvoc => colname.TVOC
  | .eCo2 => colname.ECO2

/-- Cell lookup `df[column_name]` for a quantity column. -/
def Quantity.value (q : Quantity) (r : TelemetryRow) : Option Rat :=
  match q with
  | .temperature => r.temperature
  | .pressure => r.pressure
  | .relativeHumidity => r.humidity
  | .absoluteHumidity => r.absolute_humidity
  | .co2 => r.co2
  | .tvoc => r.tvoc
  | .eCo2 => r.eCo2

/-- The select + three `is_not_null` filters at the head of `plot`
(source lines 156–165): keep rows whose sensor id, timestamp and charted
quantity are all present. -/
def filteredRows (rows : List TelemetryRow) (q : Quantity) : List TelemetryRow :=
  ((rows.filter (fun r => r.sensorId.isSome)).filter
      (fun r => r.measuredAt.isSome)).filter
    (fun r => (q.value r).isSome)

/-- The sensor roster of `plot_dataframe` (source lines 252–258): group by
`sensorId` and keep the non-null keys.  Polars does not fix the group
order; the model keeps first-occurrence order, which is one stable order. -/
def sensorRoster (rows : List TelemetryRow) : List String :=
  (rows.filterMap (fun r => r.sensorId)).eraseDups

/-- `iter().map(|x| x.try_extract()).collect::<Result<Vec<f64>, _>>()`
(source lines 221–224): a null cell cannot be converted to `f64`. -/
def try_extract_values : List (Option Rat) → Except PlotError (List Rat)
  | [] => .ok []
  | none :: _ => .error .typeError
  | some v :: rest =>
    match try_extract_values rest with
    | .error e => .error e
    | .ok vs => .ok (v :: vs)

/-- One pass of the per-sensor loop of `plot` (source lines 207–231): filter
the already-filtered frame down to one sensor, skip it silently
(`continue`, modelled as `ok none`) when nothing is left, otherwise
normalize its timestamps and extract its values. -/
def plot_sensor_step (df : List TelemetryRow) (q : Quantity) (sensor_id : String) :
    Except PlotError (Option (List (Int × Rat))) :=
  let sensor_df := df.filter (fun r => r.sensorId == some sensor_id)
  if sensor_df.isEmpty then .ok none
  else
    match as_datetime_vector (sensor_df.map (fun r => r.measuredAt)) Tokyo with
    | .error e => .error e
    | .ok (datetimes, _) =>
      match try_extract_values (sensor_df.map (fun r => q.value r)) with
      | .error e => .error e
      | .ok values => .ok (some (datetimes.zip values))

/-- The derived ranges of one panel (source lines 166–176): the global
day-aligned X range from all filtered timestamps, and `ymin`/`ymax` as
min/max of the quantity column. -/
def panel_ranges (rows : List TelemetryRow) (q : Quantity) :
    Except PlotError (RangedDateTime × Rat × Rat) :=
  let df := filteredRows rows q
  match as_datetime_vector (df.map (fun r => r.measuredAt)) Tokyo with
  | .error e => .error e
  | .ok (_, range_datetime) =>
    match listMin (df.filterMap (fun r => q.value r)) with
    | none => .error .valueEmpty
    | some ymin =>
      match listMax (df.filterMap (fun r => q.value r)) with
      | none => .error .valueEmpty
      | some ymax => .ok (range_datetime, ymin, ymax)

/-- What one call of `plot` draws into its cell: the chart axes and the
per-sensor line series (sensor id, palette color, data points). -/
structure PanelResult where
  quantity : Quantity
  caption : String
  y_desc : String
  range : RangedDateTime
  ymin : Rat
  ymax : Rat
  series : List (String × RGBColor × List (Int × Rat))
  deriving DecidableEq, Repr

/-- Fold of the per-sensor loop: run `plot_sensor_step` for every sensor in
roster order, keeping the series that were actually drawn. -/
def plot_sensor_loop (df : List TelemetryRow) (q : Quantity) :
    List (Nat × String) → Except PlotError (List (String × RGBColor × List (Int × Rat)))
  | [] => .ok []
  | (index, sensor_id) :: rest =>
    match plot_sensor_step df q sensor_id with
    | .error e => .error e
    | .ok none => plot_sensor_loop df q rest
    | .ok (some points) =>
      match plot_sensor_loop df q rest with
      | .error e => .error e
      | .ok tail => .ok ((sensor_id, assignedColor index, points) :: tail)

/-- `plot` (source lines 145–241): filter the frame, compute the global X
range and `ymin`/`ymax`, then draw one series per sensor. -/
def plot (ldf : List TelemetryRow) (q : Quantity) (caption : String)
    (y_desc : String) (sensor_ids : List String) :
    Except PlotError PanelResult :=
  let df := filteredRows ldf q
  match panel_ranges ldf q with
  | .error e => .error e
  | .ok (range_datetime, ymin, ymax) =>
    match plot_sensor_loop df q sensor_ids.enum with
    | .error e => .error e
    | .ok series =>
      .ok { quantity := q, caption := caption, y_desc := y_desc,
            range := range_datetime, ymin := ymin, ymax := ymax,
            series := series }

/-- `root_area.split_evenly((rows, cols))`: the grid cells in row-major
reading order, as (row, column) coordinates. -/
def split_evenly (rc : Nat × Nat) : List (Nat × Nat) :=
  (List.range rc.1).flatMap (fun r => (List.range rc.2).map (fun c => (r, c)))

/-- `plot_dataframe` (source lines 244–336): fix the sensor roster, split
the surface into a 4 × 2 grid, and draw the seven charts in order; the
`panic!("fatal error")` branch is modelled as a fatal error. -/
def plot_dataframe (rows : List TelemetryRow) :
    Except PlotError (List ((Nat × Nat) × PanelResult)) :=
  let sensor_ids := sensorRoster rows
  match split_evenly (4, 2) with
  | [one_l, one_r, two_l, two_r, three_l, three_r, four_l, _four_r] =>
    (match plot rows .temperature "temperature" "C" sensor_ids with
     | .error e => .error e
     | .ok p1 =>
      match plot rows .pressure "pressure" "hPa" sensor_ids with
      | .error e => .error e
      | .ok p2 =>
       match plot rows .relativeHumidity "relative humidity" "%RH" sensor_ids with
       | .error e => .error e
       | .ok p3 =>
        match plot rows .absoluteHumidity "absolute humidity" "mg/m^3" sensor_ids with
        | .error e => .error e
        | .ok p4 =>
         match plot rows .co2 "carbon dioxide (CO2)" "ppm" sensor_ids with
         | .error e => .error e
         | .ok p5 =>
          match plot rows .tvoc "Total VOC" "ppb" sensor_ids with
          | .error e => .error e
          | .ok p6 =>
           match plot rows .eCo2 "equivalent CO2" "ppm" sensor_ids with
           | .error e => .error e
           | .ok p7 =>
            .ok [(one_l, p1), (one_r, p2), (two_l, p3), (two_r, p4),
                 (three_l, p5), (three_r, p6), (four_l, p7)])
  | _ => .error .fatalError

/-- The two tick-label formats of `custom_x_label_formatter`. -/
inductive LabelFormat where
  | dateWeekday
  | hms
  deriving DecidableEq, Repr

/-- `custom_x_label_formatter` (source lines 185–191): date + weekday when
the hour component is 0, time-of-day otherwise. -/
def custom_x_label_formatter (t : Int) : LabelFormat :=
  if hourOf t = 0 then .dateWeekday else .hms

/-- `.x_labels(24)` (source line 195). -/
def x_labels : Nat := 24

/-- Modelled from the spec: the tick positions of a panel's X axis, 24
evenly spaced labels over the Axis Range.  Tick generation itself lives in
the external plotters library, outside this repository; the spec fixes it
as "24 evenly spaced tick labels" over the day-aligned range. -/
def tickPositions (r : RangedDateTime) : List Int :=
  (List.range x_labels).map
    (fun k => r.dayStart + Int.ofNat k * ((r.dayEnd - r.dayStart) / 24))

/-- A fully populated telemetry row, used to instantiate the theorems on
concrete inputs. -/
def row0 : TelemetryRow :=
  { sensorId := some "sensor-a", measuredAt := some 3600,
    temperature := some 21, humidity := some 45,
    absolute_humidity := some 8, pressure := some 1013,
    tvoc := some 10, eCo2 := some 400, co2 := some 600 }

/-- A one-row table with every quantity present. -/
def rows0 : List TelemetryRow := [row0]

/-- A row like `row0` but with a null pressure cell. -/
def row_np : TelemetryRow := { row0 with pressure := none }

/-- A table whose pressure column is entirely null. -/
def rows_np : List TelemetryRow := [row_np]

/-- The panels `plot_dataframe` draws for `rows0`. -/
def res0 : List ((Nat × Nat) × PanelResult) :=
  ((plot_dataframe rows0).toOption).getD []

/-- The temperature panel `plot` draws for `rows0`. -/
def panel0 : PanelResult :=
  ((plot rows0 .temperature "temperature" "C" ["sensor-a"]).toOption).getD
    ⟨.temperature, "", "", ⟨0, 0⟩, 0, 0, []⟩

section Lemmas

theorem collectOptions_map_some {α : Type} (l : List α) :
    collectOptions (l.map some) = some l := by
  induction l with
  | nil => rfl
  | cons x xs ih => simp [collectOptions, ih]

theorem collectOptions_of_isSome {α : Type} (d : α) (l : List (Option α))
    (h : ∀ x ∈ l, x.isSome) :
    collectOptions l = some (l.map (fun x => x.getD d)) := by
  induction l with
  | nil => rfl
  | cons x xs ih =>
    have hx : x.isSome := h x (by simp)
    obtain ⟨a, rfl⟩ := Option.isSome_iff_exists.mp hx
    have : collectOptions xs = some (xs.map (fun x => x.getD d)) :=
      ih (fun y hy => h y (by simp [hy]))
    simp [collectOptions, this]

theorem collectOptions_length {α : Type} (l : List (Option α)) (us : List α)
    (h : collectOptions l = some us) : us.length = l.length := by
  induction l generalizing us with
  | nil => simp [collectOptions] at h; simp [← h]
  | cons x xs ih =>
    match x with
    | none => simp [collectOptions] at h
    | some a =>
      simp only [collectOptions] at h
      cases hc : collectOptions xs with
      | none => rw [hc] at h; simp at h
      | some vs =>
        rw [hc] at h
        simp at h
        simp [← h, ih vs hc]

theorem listMin_eq_none_iff {α : Type} [LinearOrder α] (l : List α) :
    listMin l = none ↔ l = [] := by
  cases l with
  | nil => simp [listMin]
  | cons x xs =>
    simp only [listMin]
    cases listMin xs <;> simp

theorem listMin_mem {α : Type} [LinearOrder α] (l : List α) (m : α)
    (h : listMin l = some m) : m ∈ l := by
  induction l generalizing m with
  | nil => simp [listMin] at h
  | cons x xs ih =>
    simp only [listMin] at h
    cases hm : listMin xs with
    | none => rw [hm] at h; simp at h; simp [h]
    | some m0 =>
      rw [hm] at h
      simp at h
      rcases min_cases x m0 with ⟨he, _⟩ | ⟨he, _⟩
      · rw [he] at h; simp [← h]
      · rw [he] at h; right; exact h ▸ ih m0 hm

theorem listMin_le {α : Type} [LinearOrder α] (l : List α) (m : α)
    (h : listMin l = some m) : ∀ y ∈ l, m ≤ y := by
  induction l generalizing m with
  | nil => simp
  | cons x xs ih =>
    simp only [listMin] at h
    cases hm : listMin xs with
    | none =>
      rw [hm] at h
      simp at h
      have : xs = [] := (listMin_eq_none_iff xs).mp hm
      subst this
      simp [h]
    | some m0 =>
      rw [hm] at h
      simp at h
      intro y hy
      rcases List.mem_cons.mp hy with rfl | hy2
      · exact h ▸ min_le_left _ _
      · exact le_trans (h ▸ min_le_right _ _) (ih m0 hm y hy2)

theorem listMax_eq_none_iff {α : Type} [LinearOrder α] (l : List α) :
    listMax l = none ↔ l = [] := by
  cases l with
  | nil => simp [listMax]
  | cons x xs =>
    simp only [listMax]
    cases listMax xs <;> simp

theorem listMax_mem {α : Type} [LinearOrder α] (l : List α) (m : α)
    (h : listMax l = some m) : m ∈ l := by
  induction l generalizing m with
  | nil => simp [listMax] at h
  | cons x xs ih =>
    simp only [listMax] at h
    cases hm : listMax xs with
    | none => rw [hm] at h; simp at h; simp [h]
    | some m0 =>
      rw [hm] at h
      simp at h
      rcases max_cases x m0 with ⟨he, _⟩ | ⟨he, _⟩
      · rw [he] at h; simp [← h]
      · rw [he] at h; right; exact h ▸ ih m0 hm

theorem le_listMax {α : Type} [LinearOrder α] (l : List α) (m : α)
    (h : listMax l = some m) : ∀ y ∈ l, y ≤ m := by
  induction l generalizing m with
  | nil => simp
  | cons x xs ih =>
    simp only [listMax] at h
    cases hm : listMax xs with
    | none =>
      rw [hm] at h
      simp at h
      have : xs = [] := (listMax_eq_none_iff xs).mp hm
      subst this
      simp [h]
    | some m0 =>
      rw [hm] at h
      simp at h
      intro y hy
      rcases List.mem_cons.mp hy with rfl | hy2
      · exact h ▸ le_max_left _ _
      · exact le_trans (ih m0 hm y hy2) (h ▸ le_max_right _ _)

theorem midnight_le (t : Int) : midnight t ≤ t := by
  unfold midnight; omega

theorem lt_midnight_add_day (t : Int) : t < midnight t + 86400 := by
  unfold midnight; omega

theorem midnight_emod (t : Int) : midnight t % 86400 = 0 := by
  unfold midnight; omega

theorem try_extract_values_of_isSome (l : List (Option Rat))
    (h : ∀ x ∈ l, x.isSome) :
    try_extract_values l = .ok (l.map (fun x => x.getD 0)) := by
  induction l with
  | nil => rfl
  | cons x xs ih =>
    have hx : x.isSome := h x (by simp)
    obtain ⟨a, rfl⟩ := Option.isSome_iff_exists.mp hx
    have : try_extract_values xs = .ok (xs.map (fun x => x.getD 0)) :=
      ih (fun y hy => h y (by simp [hy]))
    simp [try_extract_values, this]

theorem try_extract_values_error (l : List (Option Rat)) (e : PlotError)
    (h : try_extract_values l = .error e) : e = .typeError := by
  induction l with
  | nil => simp [try_extract_values] at h
  | cons x xs ih =>
    cases x with
    | none => simp [try_extract_values] at h; exact h.symm
    | some a =>
      simp only [try_extract_values] at h
      cases ht : try_extract_values xs with
      | error e2 =>
        rw [ht] at h
        simp at h
        subst h
        exact ih ht
      | ok vs => rw [ht] at h; simp at h

theorem mem_filteredRows (rows : List TelemetryRow) (q : Quantity)
    (r : TelemetryRow) :
    r ∈ filteredRows rows q ↔
      r ∈ rows ∧ r.sensorId.isSome ∧ r.measuredAt.isSome ∧ (q.value r).isSome := by
  simp only [filteredRows, List.mem_filter]
  tauto

theorem listMin_isSome {α : Type} [LinearOrder α] (l : List α) (h : l ≠ []) :
    ∃ m, listMin l = some m := by
  cases hm : listMin l with
  | none => exact absurd ((listMin_eq_none_iff l).mp hm) h
  | some m => exact ⟨m, rfl⟩

theorem listMax_isSome {α : Type} [LinearOrder α] (l : List α) (h : l ≠ []) :
    ∃ m, listMax l = some m := by
  cases hm : listMax l with
  | none => exact absurd ((listMax_eq_none_iff l).mp hm) h
  | some m => exact ⟨m, rfl⟩

theorem as_datetime_vector_spec (series : List (Option Int)) (tz : Tz)
    (us : List Int) (m M : Int)
    (hc : collectOptions series = some us)
    (hm : listMin (us.map tz.from_utc_datetime) = some m)
    (hM : listMax (us.map tz.from_utc_datetime) = some M) :
    as_datetime_vector series tz =
      .ok (us.map tz.from_utc_datetime,
        { dayStart := midnight m, dayEnd := midnight M + 86400 }) := by
  simp [as_datetime_vector, hc, hm, hM]

theorem as_datetime_vector_ne_noData (series : List (Option Int)) (tz : Tz)
    (h : series ≠ []) : as_datetime_vector series tz ≠ .error .noData := by
  unfold as_datetime_vector
  cases hc : collectOptions series with
  | none => simp
  | some us =>
    have hlen : us.length = series.length := collectOptions_length _ _ hc
    have hus : us ≠ [] := by
      intro h0
      subst h0
      simp at hlen
      exact h (List.eq_nil_of_length_eq_zero hlen.symm)
    have hmap : us.map tz.from_utc_datetime ≠ [] := by simp [hus]
    obtain ⟨m, hmin⟩ := listMin_isSome _ hmap
    obtain ⟨M, hmax⟩ := listMax_isSome _ hmap
    simp [hmin, hmax]

theorem plot_sensor_step_spec (df : List TelemetryRow) (q : Quantity) (sid : String)
    (hm : ∀ r ∈ df, r.measuredAt.isSome) (hv : ∀ r ∈ df, (q.value r).isSome) :
    plot_sensor_step df q sid =
      .ok (if (df.filter (fun r => r.sensorId == some sid)).isEmpty then none
        else some ((df.filter (fun r => r.sensorId == some sid)).map
          (fun r => (Tokyo.from_utc_datetime (r.measuredAt.getD 0),
            (q.value r).getD 0)))) := by
  set sdf := df.filter (fun r => r.sensorId == some sid) with hsdf
  by_cases he : sdf.isEmpty
  · simp [plot_sensor_step, ← hsdf, he]
  · have hne : sdf ≠ [] := by
      intro h0
      exact he (by simp [h0])
    have hsub : ∀ r ∈ sdf, r ∈ df := fun r hr => (List.mem_filter.mp hr).1
    have hm2 : ∀ x ∈ sdf.map (fun r => r.measuredAt), x.isSome := by
      intro x hx
      obtain ⟨r, hr, rfl⟩ := List.mem_map.mp hx
      exact hm r (hsub r hr)
    have hv2 : ∀ x ∈ sdf.map (fun r => q.value r), x.isSome := by
      intro x hx
      obtain ⟨r, hr, rfl⟩ := List.mem_map.mp hx
      exact hv r (hsub r hr)
    have hc : collectOptions (sdf.map (fun r => r.measuredAt))
        = some (sdf.map (fun r => r.measuredAt.getD 0)) := by
      rw [collectOptions_of_isSome 0 _ hm2, List.map_map]
      rfl
    have hloc : (sdf.map (fun r => r.measuredAt.getD 0)).map Tokyo.from_utc_datetime
        = sdf.map (fun r => Tokyo.from_utc_datetime (r.measuredAt.getD 0)) := by
      rw [List.map_map]
      rfl
    have hlocne : sdf.map (fun r => Tokyo.from_utc_datetime (r.measuredAt.getD 0)) ≠ [] := by
      simp [hne]
    obtain ⟨m, hmin⟩ := listMin_isSome _ hlocne
    obtain ⟨M, hmax⟩ := listMax_isSome _ hlocne
    have hadv := as_datetime_vector_spec (sdf.map (fun r => r.measuredAt)) Tokyo
      (sdf.map (fun r => r.measuredAt.getD 0)) m M hc (hloc ▸ hmin) (hloc ▸ hmax)
    have hex : try_extract_values (sdf.map (fun r => q.value r))
        = .ok (sdf.map (fun r => (q.value r).getD 0)) := by
      rw [try_extract_values_of_isSome _ hv2, List.map_map]
      rfl
    simp only [plot_sensor_step, ← hsdf, he, if_false, Bool.false_eq_true, hadv, hex]
    rw [hloc, List.zip_map' _ _ sdf]

theorem plot_sensor_loop_mem (df : List TelemetryRow) (q : Quantity)
    (pairs : List (Nat × String)) (out : List (String × RGBColor × List (Int × Rat)))
    (h : plot_sensor_loop df q pairs = .ok out) :
    ∀ s ∈ out, ∃ ix, (ix, s.1) ∈ pairs ∧ s.2.1 = assignedColor ix ∧
      plot_sensor_step df q s.1 = .ok (some s.2.2) := by
  induction pairs generalizing out with
  | nil =>
    simp [plot_sensor_loop] at h
    subst h
    simp
  | cons p rest ih =>
    obtain ⟨ix, sid⟩ := p
    simp only [plot_sensor_loop] at h
    cases hs : plot_sensor_step df q sid with
    | error e => rw [hs] at h; simp at h
    | ok o =>
      rw [hs] at h
      cases o with
      | none =>
        intro s hsmem
        obtain ⟨ix2, h1, h2, h3⟩ := ih out h s hsmem
        exact ⟨ix2, by simp [h1], h2, h3⟩
      | some points =>
        cases hrest : plot_sensor_loop df q rest with
        | error e => rw [hrest] at h; simp at h
        | ok tail =>
          rw [hrest] at h
          simp at h
          subst h
          intro s hsmem
          rcases List.mem_cons.mp hsmem with rfl | hmem2
          · exact ⟨ix, by simp, rfl, by simpa using hs⟩
          · obtain ⟨ix2, h1, h2, h3⟩ := ih tail hrest s hmem2
            exact ⟨ix2, by simp [h1], h2, h3⟩

theorem plot_ok (rows : List TelemetryRow) (q : Quantity) (c y : String)
    (ids : List String) (p : PanelResult)
    (h : plot rows q c y ids = .ok p) :
    p.quantity = q ∧ p.caption = c ∧ p.y_desc = y ∧
    panel_ranges rows q = .ok (p.range, p.ymin, p.ymax) ∧
    plot_sensor_loop (filteredRows rows q) q ids.enum = .ok p.series := by
  unfold plot at h
  cases hr : panel_ranges rows q with
  | error e => rw [hr] at h; simp at h
  | ok t =>
    obtain ⟨range, ymin, ymax⟩ := t
    rw [hr] at h
    simp only at h
    cases hl : plot_sensor_loop (filteredRows rows q) q ids.enum with
    | error e => rw [hl] at h; simp at h
    | ok series =>
      rw [hl] at h
      simp at h
      subst h
      simp [hr, hl]

theorem filteredRows_congr (rows1 rows2 : List TelemetryRow) (q : Quantity)
    (h : filteredRows rows1 q = filteredRows rows2 q) :
    panel_ranges rows1 q = panel_ranges rows2 q := by
  unfold panel_ranges
  rw [h]

theorem plot_congr (rows1 rows2 : List TelemetryRow) (q : Quantity) (c y : String)
    (ids : List String) (h : filteredRows rows1 q = filteredRows rows2 q) :
    plot rows1 q c y ids = plot rows2 q c y ids := by
  unfold plot panel_ranges
  rw [h]

theorem plot_dataframe_eq (rows : List TelemetryRow) :
    plot_dataframe rows =
      match plot rows .temperature "temperature" "C" (sensorRoster rows) with
      | .error e => .error e
      | .ok p1 =>
        match plot rows .pressure "pressure" "hPa" (sensorRoster rows) with
        | .error e => .error e
        | .ok p2 =>
          match plot rows .relativeHumidity "relative humidity" "%RH"
              (sensorRoster rows) with
          | .error e => .error e
          | .ok p3 =>
            match plot rows .absoluteHumidity "absolute humidity" "mg/m^3"
                (sensorRoster rows) with
            | .error e => .error e
            | .ok p4 =>
              match plot rows .co2 "carbon dioxide (CO2)" "ppm"
                  (sensorRoster rows) with
              | .error e => .error e
              | .ok p5 =>
                match plot rows .tvoc "Total VOC" "ppb" (sensorRoster rows) with
                | .error e => .error e
                | .ok p6 =>
                  match plot rows .eCo2 "equivalent CO2" "ppm"
                      (sensorRoster rows) with
                  | .error e => .error e
                  | .ok p7 =>
                    .ok [((0, 0), p1), ((0, 1), p2), ((1, 0), p3), ((1, 1), p4),
                         ((2, 0), p5), ((2, 1), p6), ((3, 0), p7)] := rfl

theorem plot_dataframe_ok (rows : List TelemetryRow)
    (res : List ((Nat × Nat) × PanelResult))
    (h : plot_dataframe rows = .ok res) :
    ∃ p1 p2 p3 p4 p5 p6 p7,
      plot rows .temperature "temperature" "C" (sensorRoster rows) = .ok p1 ∧
      plot rows .pressure "pressure" "hPa" (sensorRoster rows) = .ok p2 ∧
      plot rows .relativeHumidity "relative humidity" "%RH" (sensorRoster rows)
        = .ok p3 ∧
      plot rows .absoluteHumidity "absolute humidity" "mg/m^3" (sensorRoster rows)
        = .ok p4 ∧
      plot rows .co2 "carbon dioxide (CO2)" "ppm" (sensorRoster rows) = .ok p5 ∧
      plot rows .tvoc "Total VOC" "ppb" (sensorRoster rows) = .ok p6 ∧
      plot rows .eCo2 "equivalent CO2" "ppm" (sensorRoster rows) = .ok p7 ∧
      res = [((0, 0), p1), ((0, 1), p2), ((1, 0), p3), ((1, 1), p4),
             ((2, 0), p5), ((2, 1), p6), ((3, 0), p7)] := by
  rw [plot_dataframe_eq] at h
  cases h1 : plot rows .temperature "temperature" "C" (sensorRoster rows) with
  | error e => rw [h1] at h; simp at h
  | ok p1 =>
  rw [h1] at h
  cases h2 : plot rows .pressure "pressure" "hPa" (sensorRoster rows) with
  | error e => rw [h2] at h; simp at h
  | ok p2 =>
  rw [h2] at h
  cases h3 : plot rows .relativeHumidity "relative humidity" "%RH"
      (sensorRoster rows) with
  | error e => rw [h3] at h; simp at h
  | ok p3 =>
  rw [h3] at h
  cases h4 : plot rows .absoluteHumidity "absolute humidity" "mg/m^3"
      (sensorRoster rows) with
  | error e => rw [h4] at h; simp at h
  | ok p4 =>
  rw [h4] at h
  cases h5 : plot rows .co2 "carbon dioxide (CO2)" "ppm" (sensorRoster rows) with
  | error e => rw [h5] at h; simp at h
  | ok p5 =>
  rw [h5] at h
  cases h6 : plot rows .tvoc "Total VOC" "ppb" (sensorRoster rows) with
  | error e => rw [h6] at h; simp at h
  | ok p6 =>
  rw [h6] at h
  cases h7 : plot rows .eCo2 "equivalent CO2" "ppm" (sensorRoster rows) with
  | error e => rw [h7] at h; simp at h
  | ok p7 =>
  rw [h7] at h
  simp at h
  exact ⟨p1, p2, p3, p4, p5, p6, p7, rfl, rfl, rfl, rfl, rfl, rfl, rfl, h.symm⟩

theorem filterMap_values_of_isSome (df : List TelemetryRow) (q : Quantity)
    (h : ∀ r ∈ df, (q.value r).isSome) :
    df.filterMap (fun r => q.value r) = df.map (fun r => (q.value r).getD 0) := by
  induction df with
  | nil => rfl
  | cons r rest ih =>
    have hr : (q.value r).isSome := h r (by simp)
    obtain ⟨a, ha⟩ := Option.isSome_iff_exists.mp hr
    simp [List.filterMap_cons, ha, ih (fun r2 h2 => h r2 (by simp [h2]))]

theorem plot_empty (rows : List TelemetryRow) (q : Quantity) (c y : String)
    (ids : List String) (h : filteredRows rows q = []) :
    plot rows q c y ids = .error .noData := by
  unfold plot panel_ranges
  rw [h]
  rfl

theorem plot_sensor_loop_ok (df : List TelemetryRow) (q : Quantity)
    (hm : ∀ r ∈ df, r.measuredAt.isSome) (hv : ∀ r ∈ df, (q.value r).isSome)
    (pairs : List (Nat × String)) :
    ∃ out, plot_sensor_loop df q pairs = .ok out := by
  induction pairs with
  | nil => exact ⟨[], rfl⟩
  | cons p rest ih =>
    obtain ⟨ix, sid⟩ := p
    obtain ⟨out, hout⟩ := ih
    have hstep := plot_sensor_step_spec df q sid hm hv
    by_cases he : (df.filter (fun r => r.sensorId == some sid)).isEmpty
    · rw [if_pos he] at hstep
      exact ⟨out, by simp only [plot_sensor_loop, hstep, hout]⟩
    · rw [if_neg he] at hstep
      exact ⟨(sid, assignedColor ix,
        (df.filter (fun r => r.sensorId == some sid)).map
          (fun r => (Tokyo.from_utc_datetime (r.measuredAt.getD 0),
            (q.value r).getD 0))) :: out,
        by simp only [plot_sensor_loop, hstep, hout]⟩

theorem panel_ranges_ok_of_ne_nil (rows : List TelemetryRow) (q : Quantity)
    (h : filteredRows rows q ≠ []) :
    ∃ t, panel_ranges rows q = .ok t := by
  set df := filteredRows rows q with hdf
  have hm : ∀ r ∈ df, r.measuredAt.isSome :=
    fun r hr => ((mem_filteredRows rows q r).mp hr).2.2.1
  have hv : ∀ r ∈ df, (q.value r).isSome :=
    fun r hr => ((mem_filteredRows rows q r).mp hr).2.2.2
  have hm2 : ∀ x ∈ df.map (fun r => r.measuredAt), x.isSome := by
    intro x hx
    obtain ⟨r, hr, rfl⟩ := List.mem_map.mp hx
    exact hm r hr
  have hc : collectOptions (df.map (fun r => r.measuredAt))
      = some (df.map (fun r => r.measuredAt.getD 0)) := by
    rw [collectOptions_of_isSome 0 _ hm2, List.map_map]
    rfl
  have hlocne :
      (df.map (fun r => r.measuredAt.getD 0)).map Tokyo.from_utc_datetime ≠ [] := by
    simp [h]
  obtain ⟨m, hmin⟩ := listMin_isSome _ hlocne
  obtain ⟨M, hmax⟩ := listMax_isSome _ hlocne
  have hadv := as_datetime_vector_spec (df.map (fun r => r.measuredAt)) Tokyo
    (df.map (fun r => r.measuredAt.getD 0)) m M hc hmin hmax
  have hvals : df.filterMap (fun r => q.value r)
      = df.map (fun r => (q.value r).getD 0) :=
    filterMap_values_of_isSome df q hv
  have hvne : df.map (fun r => (q.value r).getD 0) ≠ [] := by simp [h]
  obtain ⟨ymin, hymin⟩ := listMin_isSome _ hvne
  obtain ⟨ymax, hymax⟩ := listMax_isSome _ hvne
  refine ⟨({ dayStart := midnight m, dayEnd := midnight M + 86400 }, ymin, ymax), ?_⟩
  unfold panel_ranges
  rw [← hdf]
  simp only [hadv, hvals, hymin, hymax]

theorem plot_ok_of_ne_nil (rows : List TelemetryRow) (q : Quantity) (c y : String)
    (ids : List String) (h : filteredRows rows q ≠ []) :
    ∃ p, plot rows q c y ids = .ok p := by
  obtain ⟨t, hpr⟩ := panel_ranges_ok_of_ne_nil rows q h
  obtain ⟨rng, ymin, ymax⟩ := t
  obtain ⟨out, hout⟩ := plot_sensor_loop_ok (filteredRows rows q) q
    (fun r hr => ((mem_filteredRows rows q r).mp hr).2.2.1)
    (fun r hr => ((mem_filteredRows rows q r).mp hr).2.2.2) ids.enum
  exact ⟨⟨q, c, y, rng, ymin, ymax, out⟩, by simp only [plot, hpr, hout]⟩

theorem plot_error_noData (rows : List TelemetryRow) (q : Quantity) (c y : String)
    (ids : List String) (e : PlotError) (h : plot rows q c y ids = .error e) :
    e = .noData := by
  by_cases hdf : filteredRows rows q = []
  · have h2 := plot_empty rows q c y ids hdf
    rw [h] at h2
    simpa using h2
  · obtain ⟨p, hp⟩ := plot_ok_of_ne_nil rows q c y ids hdf
    rw [h] at hp
    simp at hp

theorem plot_dataframe_error_noData (rows : List TelemetryRow) (e : PlotError)
    (h : plot_dataframe rows = .error e) : e = .noData := by
  rw [plot_dataframe_eq] at h
  cases h1 : plot rows .temperature "temperature" "C" (sensorRoster rows) with
  | error e1 =>
    rw [h1] at h
    simp at h
    subst h
    exact plot_error_noData _ _ _ _ _ _ h1
  | ok p1 =>
  rw [h1] at h
  cases h2 : plot rows .pressure "pressure" "hPa" (sensorRoster rows) with
  | error e2 =>
    rw [h2] at h
    simp at h
    subst h
    exact plot_error_noData _ _ _ _ _ _ h2
  | ok p2 =>
  rw [h2] at h
  cases h3 : plot rows .relativeHumidity "relative humidity" "%RH"
      (sensorRoster rows) with
  | error e3 =>
    rw [h3] at h
    simp at h
    subst h
    exact plot_error_noData _ _ _ _ _ _ h3
  | ok p3 =>
  rw [h3] at h
  cases h4 : plot rows .absoluteHumidity "absolute humidity" "mg/m^3"
      (sensorRoster rows) with
  | error e4 =>
    rw [h4] at h
    simp at h
    subst h
    exact plot_error_noData _ _ _ _ _ _ h4
  | ok p4 =>
  rw [h4] at h
  cases h5 : plot rows .co2 "carbon dioxide (CO2)" "ppm" (sensorRoster rows) with
  | error e5 =>
    rw [h5] at h
    simp at h
    subst h
    exact plot_error_noData _ _ _ _ _ _ h5
  | ok p5 =>
  rw [h5] at h
  cases h6 : plot rows .tvoc "Total VOC" "ppb" (sensorRoster rows) with
  | error e6 =>
    rw [h6] at h
    simp at h
    subst h
    exact plot_error_noData _ _ _ _ _ _ h6
  | ok p6 =>
  rw [h6] at h
  cases h7 : plot rows .eCo2 "equivalent CO2" "ppm" (sensorRoster rows) with
  | error e7 =>
    rw [h7] at h
    simp at h
    subst h
    exact plot_error_noData _ _ _ _ _ _ h7
  | ok p7 =>
  rw [h7] at h
  simp at h

theorem plot_dataframe_ok_quantity (rows : List TelemetryRow)
    (res : List ((Nat × Nat) × PanelResult)) (h : plot_dataframe rows = .ok res)
    (q : Quantity) : ∃ c y p, plot rows q c y (sensorRoster rows) = .ok p := by
  obtain ⟨p1, p2, p3, p4, p5, p6, p7, h1, h2, h3, h4, h5, h6, h7, -⟩ :=
    plot_dataframe_ok rows res h
  cases q with
  | temperature => exact ⟨_, _, _, h1⟩
  | pressure => exact ⟨_, _, _, h2⟩
  | relativeHumidity => exact ⟨_, _, _, h3⟩
  | absoluteHumidity => exact ⟨_, _, _, h4⟩
  | co2 => exact ⟨_, _, _, h5⟩
  | tvoc => exact ⟨_, _, _, h6⟩
  | eCo2 => exact ⟨_, _, _, h7⟩

end Lemmas

/-- C1: for every non-empty list of valid (non-null) UTC timestamps,
`as_datetime_vector` returns their timezone-local images together with an
Axis Range whose start is midnight of the date of the minimum local
timestamp and whose end is midnight of the day after the date of the
maximum local timestamp; the start is exactly midnight and ≤ every
normalized timestamp, and the end is exactly midnight and > every
normalized timestamp. -/
theorem axis_range_day_aligned (utcs : List Int) (tz : Tz) (h : utcs ≠ []) :
    ∃ r : RangedDateTime,
      as_datetime_vector (utcs.map some) tz
          = .ok (utcs.map tz.from_utc_datetime, r) ∧
      (∃ m, listMin (utcs.map tz.from_utc_datetime) = some m ∧
        r.dayStart = midnight m) ∧
      (∃ M, listMax (utcs.map tz.from_utc_datetime) = some M ∧
        r.dayEnd = midnight M + 86400) ∧
      r.dayStart % 86400 = 0 ∧ r.dayEnd % 86400 = 0 ∧
      ∀ t ∈ utcs.map tz.from_utc_datetime, r.dayStart ≤ t ∧ t < r.dayEnd := by
  have hmap : utcs.map tz.from_utc_datetime ≠ [] := by simp [h]
  obtain ⟨m, hmin⟩ := listMin_isSome _ hmap
  obtain ⟨M, hmax⟩ := listMax_isSome _ hmap
  refine ⟨⟨midnight m, midnight M + 86400⟩,
    as_datetime_vector_spec _ tz utcs m M (collectOptions_map_some utcs) hmin hmax,
    ⟨m, hmin, rfl⟩, ⟨M, hmax, rfl⟩, midnight_emod m, ?_, ?_⟩
  · show (midnight M + 86400) % 86400 = 0
    have := midnight_emod M
    omega
  · intro t ht
    exact ⟨le_trans (midnight_le m) (listMin_le _ m hmin t ht),
      lt_of_le_of_lt (le_listMax _ M hmax t ht) (lt_midnight_add_day M)⟩

/-- Witness for C1 at the concrete one-element timestamp list `[3600]`
converted with the Tokyo timezone. -/
theorem axis_range_day_aligned_witness :
    ([3600] : List Int) ≠ [] ∧
    ∃ r : RangedDateTime,
      as_datetime_vector (([3600] : List Int).map some) Tokyo
          = .ok (([3600] : List Int).map Tokyo.from_utc_datetime, r) ∧
      (∃ m, listMin (([3600] : List Int).map Tokyo.from_utc_datetime) = some m ∧
        r.dayStart = midnight m) ∧
      (∃ M, listMax (([3600] : List Int).map Tokyo.from_utc_datetime) = some M ∧
        r.dayEnd = midnight M + 86400) ∧
      r.dayStart % 86400 = 0 ∧ r.dayEnd % 86400 = 0 ∧
      ∀ t ∈ ([3600] : List Int).map Tokyo.from_utc_datetime,
        r.dayStart ≤ t ∧ t < r.dayEnd :=
  ⟨by decide, axis_range_day_aligned [3600] Tokyo (by decide)⟩

/-- C4 counterexample: the assigned color is not a function of the sensor
index modulo the palette size — index 7 receives `COLOR_PALETTE[0]`
(BLUE), while index 7 % 6 = 1 receives `COLOR_PALETTE[1]` (ORANGE). -/
theorem color_not_mod_palette :
    assignedColor 7 ≠ assignedColor (7 % COLOR_PALETTE.length) := by decide

/-- C4 (amended): the assigned color is `COLOR_PALETTE[i]` for every index
below the palette length and `COLOR_PALETTE[0]` for every index at or
beyond it (so any index ≥ the palette length wraps to `palette[0]`, and
sensor index 6 yields the same color as index 0), but it is not the
palette entry at `i` modulo the palette size. -/
theorem color_assignment_wraps :
    assignedColor 6 = assignedColor 0 ∧
    (∀ i : Nat, ∀ hi : i < COLOR_PALETTE.length,
      assignedColor i = COLOR_PALETTE.get ⟨i, hi⟩) ∧
    (∀ i : Nat, COLOR_PALETTE.length ≤ i →
      assignedColor i = COLOR_PALETTE.get ⟨0, by decide⟩) := by
  refine ⟨by decide, ?_, ?_⟩
  · intro i hi
    unfold assignedColor
    rw [List.get?_eq_get hi]
  · intro i hi
    unfold assignedColor
    rw [List.get?_eq_none.mpr hi]
    rfl

/-- Witness for C4 (amended) at the concrete indices 2 and 9. -/
theorem color_assignment_wraps_witness :
    assignedColor 2 = COLOR_PALETTE.get ⟨2, by decide⟩ ∧
    assignedColor 9 = COLOR_PALETTE.get ⟨0, by decide⟩ :=
  ⟨color_assignment_wraps.2.1 2 (by decide),
   color_assignment_wraps.2.2 9 (by decide)⟩

/-- C5: the X axis requests 24 tick labels over the day-aligned Axis
Range, and each tick is formatted as date + weekday exactly when it falls
at local midnight, as HH:MM:SS otherwise.  Tick placement is performed by
the external plotters library; it is modelled from the spec as 24 evenly
spaced positions over the range (`tickPositions`), while the formatter is
the source's `custom_x_label_formatter`. -/
theorem tick_label_midnight_iff (r : RangedDateTime)
    (h1 : r.dayStart % 86400 = 0) (h2 : r.dayEnd % 86400 = 0) :
    (tickPositions r).length = 24 ∧ x_labels = 24 ∧
    ∀ t ∈ tickPositions r,
      (custom_x_label_formatter t = .dateWeekday ↔ t % 86400 = 0) := by
  refine ⟨by rw [tickPositions, List.length_map, List.length_range]; rfl, rfl, ?_⟩
  intro t ht
  obtain ⟨k, _, rfl⟩ := List.mem_map.mp ht
  have hstart : (3600 : Int) ∣ r.dayStart := ⟨r.dayStart / 3600, by omega⟩
  have hstep : (3600 : Int) ∣ (r.dayEnd - r.dayStart) / 24 :=
    ⟨(r.dayEnd - r.dayStart) / 86400, by omega⟩
  have ht3600 : (3600 : Int) ∣ r.dayStart + Int.ofNat k * ((r.dayEnd - r.dayStart) / 24) :=
    dvd_add hstart (Dvd.dvd.mul_left hstep _)
  obtain ⟨a, ha⟩ := ht3600
  rw [ha]
  by_cases hc : hourOf (3600 * a) = 0
  · rw [custom_x_label_formatter, if_pos hc]
    unfold hourOf at hc
    exact ⟨fun _ => by omega, fun _ => rfl⟩
  · rw [custom_x_label_formatter, if_neg hc]
    unfold hourOf at hc
    exact ⟨fun hcontra => absurd hcontra (by simp),
      fun h0 => absurd (by omega : (3600 * a % 86400) / 3600 = 0) hc⟩

/-- Witness for C5 at the concrete one-day range [0, 86400) and the tick
position 0 (midnight). -/
theorem tick_label_midnight_iff_witness :
    custom_x_label_formatter 0 = .dateWeekday ↔ (0 : Int) % 86400 = 0 :=
  (tick_label_midnight_iff ⟨0, 86400⟩ (by decide) (by decide)).2.2 0 (by decide)

/-- C9: the empty-input `NoData` branch of `as_datetime_vector` is
unreachable inside the per-sensor loop: a non-empty timestamp column never
produces `NoData`, and the per-sensor step — which skips empty sub-frames
(`continue`) before calling `as_datetime_vector` — never fails with
`NoData` for any frame, quantity and sensor. -/
theorem sensor_loop_no_nodata :
    (∀ (series : List (Option Int)) (tz : Tz), series ≠ [] →
      as_datetime_vector series tz ≠ .error .noData) ∧
    (∀ (df : List TelemetryRow) (q : Quantity) (sid : String),
      plot_sensor_step df q sid ≠ .error .noData) := by
  refine ⟨fun series tz h => as_datetime_vector_ne_noData series tz h, ?_⟩
  intro df q sid
  unfold plot_sensor_step
  set sdf := df.filter (fun r => r.sensorId == some sid) with hsdf
  by_cases he : sdf.isEmpty
  · simp [he]
  · have hne : sdf ≠ [] := fun h0 => he (by simp [h0])
    have hmapne : sdf.map (fun r => r.measuredAt) ≠ [] := by simp [hne]
    simp only [he, Bool.false_eq_true, if_false]
    cases hadv : as_datetime_vector (sdf.map (fun r => r.measuredAt)) Tokyo with
    | error e =>
      have hno : e ≠ .noData :=
        fun h0 => (as_datetime_vector_ne_noData _ Tokyo hmapne) (h0 ▸ hadv)
      simp [hno]
    | ok pr =>
      obtain ⟨datetimes, rng⟩ := pr
      cases hex : try_extract_values (sdf.map (fun r => q.value r)) with
      | error e2 =>
        have : e2 = .typeError := try_extract_values_error _ _ hex
        subst this
        simp
      | ok vals => simp

/-- Witness for C9 at the concrete non-empty series `[some 0]`. -/
theorem sensor_loop_no_nodata_witness :
    as_datetime_vector [some (0 : Int)] Tokyo ≠ .error .noData :=
  sensor_loop_no_nodata.1 [some 0] Tokyo (by decide)

/-- C2: for every input table and every quantity with zero non-null values
across all sensors (for example a table whose pressure column is entirely
null), generating that quantity's panel fails with the `NoData` error, and
`plot_dataframe` returns the `NoData` error for the whole file instead of
continuing with the remaining panels. -/
theorem null_quantity_aborts_file (rows : List TelemetryRow) (q : Quantity)
    (c y : String) (ids : List String) (h : ∀ r ∈ rows, q.value r = none) :
    plot rows q c y ids = .error .noData ∧
    plot_dataframe rows = .error .noData := by
  have hempty : filteredRows rows q = [] := by
    rw [List.eq_nil_iff_forall_not_mem]
    intro r hr
    have h0 := (mem_filteredRows rows q r).mp hr
    have hv := h0.2.2.2
    rw [h r h0.1] at hv
    simp at hv
  refine ⟨plot_empty rows q c y ids hempty, ?_⟩
  cases hd : plot_dataframe rows with
  | error e =>
    rw [plot_dataframe_error_noData rows e hd]
  | ok res =>
    obtain ⟨c2, y2, p, hp⟩ := plot_dataframe_ok_quantity rows res hd q
    rw [plot_empty rows q c2 y2 (sensorRoster rows) hempty] at hp
    simp at hp

/-- Witness for C2 at the concrete one-row table whose pressure cell is
null. -/
theorem null_quantity_aborts_file_witness :
    plot rows_np .pressure "pressure" "hPa" (sensorRoster rows_np) = .error .noData ∧
    plot_dataframe rows_np = .error .noData :=
  null_quantity_aborts_file rows_np .pressure "pressure" "hPa"
    (sensorRoster rows_np) (by decide)

/-- C3: the Series Extractor returns exactly the (local datetime, value)
pairs of the rows whose sensor id equals the given id, whose timestamp is
present and whose quantity value is present (`none` modelling the silent
`continue` when no row matches); the rows behind every returned pair carry
a non-null timestamp, a non-null value and the sensor id itself — never a
null sensor id. -/
theorem series_extractor_exact (rows : List TelemetryRow) (q : Quantity)
    (sid : String) :
    plot_sensor_step (filteredRows rows q) q sid =
      .ok (if ((filteredRows rows q).filter
            (fun r => r.sensorId == some sid)).isEmpty then none
        else some (((filteredRows rows q).filter
            (fun r => r.sensorId == some sid)).map
          (fun r => (Tokyo.from_utc_datetime (r.measuredAt.getD 0),
            (q.value r).getD 0)))) ∧
    ∀ r : TelemetryRow,
      r ∈ (filteredRows rows q).filter (fun r => r.sensorId == some sid) ↔
        r ∈ rows ∧ r.sensorId = some sid ∧ r.measuredAt.isSome ∧
          (q.value r).isSome := by
  constructor
  · exact plot_sensor_step_spec _ q sid
      (fun r hr => ((mem_filteredRows rows q r).mp hr).2.2.1)
      (fun r hr => ((mem_filteredRows rows q r).mp hr).2.2.2)
  · intro r
    constructor
    · intro hr
      obtain ⟨hf, hs⟩ := List.mem_filter.mp hr
      have h0 := (mem_filteredRows rows q r).mp hf
      exact ⟨h0.1, by simpa using hs, h0.2.2.1, h0.2.2.2⟩
    · intro ⟨h1, h2, h3, h4⟩
      refine List.mem_filter.mpr ⟨?_, by simp [h2]⟩
      exact (mem_filteredRows rows q r).mpr ⟨h1, by simp [h2], h3, h4⟩

/-- Witness for C3 at the concrete table `rows0` and sensor "sensor-a":
the extractor returns the single temperature point (36000, 21). -/
theorem series_extractor_exact_witness :
    plot_sensor_step (filteredRows rows0 .temperature) .temperature "sensor-a"
      = .ok (some [((36000 : Int), (21 : Rat))]) :=
  (series_extractor_exact rows0 .temperature "sensor-a").1.trans rfl

/-- C7: the derived ranges are deterministic — `panel_ranges` is a pure
function of the filtered rows, so running it on identical data (in
particular, the same table twice) gives the identical Axis Range and the
identical `ymin`/`ymax`. -/
theorem derived_ranges_deterministic (rows1 rows2 : List TelemetryRow)
    (q : Quantity) (h : filteredRows rows1 q = filteredRows rows2 q) :
    panel_ranges rows1 q = panel_ranges rows2 q := by
  unfold panel_ranges
  rw [h]

/-- Witness for C7: the table `rows0` and the table `rows0` extended with
a row whose pressure is null have the same derived pressure ranges. -/
theorem derived_ranges_deterministic_witness :
    panel_ranges rows0 .pressure = panel_ranges (rows0 ++ rows_np) .pressure :=
  derived_ranges_deterministic rows0 (rows0 ++ rows_np) .pressure (by decide)

/-- C8: a panel is insensitive to rows that are null in its quantity: two
tables with the same filtered rows (same sensor id, timestamp and quantity
all non-null) produce the same Axis Range, the same `ymin`/`ymax` and the
same per-sensor series for that quantity's panel — a row with a valid
timestamp but a null value for the quantity never changes the panel. -/
theorem panel_ignores_null_rows (rows1 rows2 : List TelemetryRow) (q : Quantity)
    (c y : String) (ids : List String)
    (h : filteredRows rows1 q = filteredRows rows2 q) :
    plot rows1 q c y ids = plot rows2 q c y ids := by
  unfold plot panel_ranges
  rw [h]

/-- Witness for C8: adding a valid-timestamp, null-pressure row to `rows0`
leaves the whole pressure panel unchanged. -/
theorem panel_ignores_null_rows_witness :
    plot rows0 .pressure "pressure" "hPa" ["sensor-a"]
      = plot (rows0 ++ rows_np) .pressure "pressure" "hPa" ["sensor-a"] :=
  panel_ignores_null_rows rows0 (rows0 ++ rows_np) .pressure "pressure" "hPa"
    ["sensor-a"] (by decide)

/-- C6: the Layout Orchestrator splits the root surface into a 4 × 2 grid
of 8 cells in row-major reading order and renders exactly seven panels
into the first seven cells, in the fixed quantity order temperature,
pressure, relative humidity, absolute humidity, CO2, Total VOC,
equivalent CO2; the eighth cell (3, 1) receives no panel. -/
theorem layout_grid_assignment (rows : List TelemetryRow)
    (res : List ((Nat × Nat) × PanelResult))
    (h : plot_dataframe rows = .ok res) :
    split_evenly (4, 2)
        = [(0, 0), (0, 1), (1, 0), (1, 1), (2, 0), (2, 1), (3, 0), (3, 1)] ∧
    res.map Prod.fst = [(0, 0), (0, 1), (1, 0), (1, 1), (2, 0), (2, 1), (3, 0)] ∧
    res.map (fun pr => pr.2.quantity) =
      [.temperature, .pressure, .relativeHumidity, .absoluteHumidity,
       .co2, .tvoc, .eCo2] ∧
    ((3, 1) : Nat × Nat) ∉ res.map Prod.fst := by
  obtain ⟨p1, p2, p3, p4, p5, p6, p7, h1, h2, h3, h4, h5, h6, h7, hres⟩ :=
    plot_dataframe_ok rows res h
  subst hres
  refine ⟨rfl, rfl, ?_, by simp⟩
  have hq1 := (plot_ok _ _ _ _ _ _ h1).1
  have hq2 := (plot_ok _ _ _ _ _ _ h2).1
  have hq3 := (plot_ok _ _ _ _ _ _ h3).1
  have hq4 := (plot_ok _ _ _ _ _ _ h4).1
  have hq5 := (plot_ok _ _ _ _ _ _ h5).1
  have hq6 := (plot_ok _ _ _ _ _ _ h6).1
  have hq7 := (plot_ok _ _ _ _ _ _ h7).1
  simp only [List.map]
  rw [hq1, hq2, hq3, hq4, hq5, hq6, hq7]

/-- Witness for C6 at the concrete one-row table `rows0`, for which all
seven panels succeed. -/
theorem layout_grid_assignment_witness :
    split_evenly (4, 2)
        = [(0, 0), (0, 1), (1, 0), (1, 1), (2, 0), (2, 1), (3, 0), (3, 1)] ∧
    res0.map Prod.fst = [(0, 0), (0, 1), (1, 0), (1, 1), (2, 0), (2, 1), (3, 0)] ∧
    res0.map (fun pr => pr.2.quantity) =
      [.temperature, .pressure, .relativeHumidity, .absoluteHumidity,
       .co2, .tvoc, .eCo2] ∧
    ((3, 1) : Nat × Nat) ∉ res0.map Prod.fst :=
  layout_grid_assignment rows0 res0 rfl

/-- C10: timestamp normalization always uses the fixed Asia/Tokyo
timezone: `Tokyo` shifts every parsed UTC instant by exactly +9 hours, and
every (timestamp, value) point of every per-sensor series drawn by `plot`
carries the Tokyo-local image of the `measuredAt` cell of one of the
filtered rows of that sensor; `plot`, `plot_sensor_step` and
`panel_ranges` pass no timezone other than `Tokyo` to
`as_datetime_vector`. -/
theorem timezone_always_tokyo :
    (∀ t : Int, Tokyo.from_utc_datetime t = t + 9 * 3600) ∧
    (∀ (rows : List TelemetryRow) (q : Quantity) (c y : String)
        (ids : List String) (p : PanelResult),
      plot rows q c y ids = .ok p →
      ∀ s ∈ p.series, ∀ pt ∈ s.2.2, ∃ r ∈ filteredRows rows q,
        r.sensorId = some s.1 ∧
        pt.1 = Tokyo.from_utc_datetime (r.measuredAt.getD 0) ∧
        pt.2 = (q.value r).getD 0) := by
  refine ⟨fun t => rfl, ?_⟩
  intro rows q c y ids p hp s hs pt hpt
  obtain ⟨-, -, -, -, hloop⟩ := plot_ok rows q c y ids p hp
  obtain ⟨ix, hmem, hcol, hstep⟩ := plot_sensor_loop_mem _ _ _ _ hloop s hs
  have hspec := plot_sensor_step_spec (filteredRows rows q) q s.1
    (fun r hr => ((mem_filteredRows rows q r).mp hr).2.2.1)
    (fun r hr => ((mem_filteredRows rows q r).mp hr).2.2.2)
  rw [hstep] at hspec
  by_cases he : ((filteredRows rows q).filter
      (fun r => r.sensorId == some s.1)).isEmpty
  · rw [if_pos he] at hspec
    simp at hspec
  · rw [if_neg he] at hspec
    simp only [Except.ok.injEq, Option.some.injEq] at hspec
    rw [hspec] at hpt
    obtain ⟨r, hr, hpair⟩ := List.mem_map.mp hpt
    have hf := List.mem_filter.mp hr
    refine ⟨r, hf.1, by simpa using hf.2, ?_, ?_⟩
    · rw [← hpair]
    · rw [← hpair]

/-- Witness for C10 at the concrete table `rows0`: the temperature panel's
only data point carries the Tokyo-local timestamp 36000 = 3600 + 9·3600.
 -/
theorem timezone_always_tokyo_witness :
    ∃ r ∈ filteredRows rows0 .temperature,
      r.sensorId = some "sensor-a" ∧
      (36000 : Int) = Tokyo.from_utc_datetime (r.measuredAt.getD 0) ∧
      (21 : Rat) = (Quantity.value .temperature r).getD 0 :=
  timezone_always_tokyo.2 rows0 .temperature "temperature" "C" ["sensor-a"]
    panel0 rfl ("sensor-a", .BLUE, [((36000 : Int), (21 : Rat))]) (by decide)
    ((36000 : Int), (21 : Rat)) (by decide)

end Plotcharts
